import Mathlib

/-!
Verification development for the openclaw-youtube plugin's comment-triage and
reply-orchestration engine.

Shallow embedding conventions:
* JavaScript strings are modelled as `List Char` (`JSString`); string literals
  are injected with `jstr`.
* Timestamps are modelled as integers; a missing or unparseable `publishedAt`
  is `none` (JavaScript's `new Date` comparison with `NaN` is always false,
  which the age filter mirrors).
* Asynchronous platform calls are modelled by passing their results in as
  parameters: a failed fetch is `none`, a successful fetch `some items`.
* The module-scoped mutable session state of `index.ts` (`repliedSet` plus the
  state file written by `state.ts`) is the explicit `EngineState`; the durable
  file's JSON round-trip is modelled structurally by `StateFile`.
* Per-task oracles (`gen`, `postOk`) are functions keyed by comment id, which
  captures "unchanged input between runs".
-/

/-- JavaScript strings, modelled as lists of characters. -/
abbrev JSString := List Char

/-- Inject a Lean string literal as a `JSString`. -/
def jstr (s : String) : JSString := s.data

/-- JavaScript `String.prototype.trim`: drop whitespace on both ends. -/
def jsTrim (s : JSString) : JSString :=
  ((s.dropWhile Char.isWhitespace).reverse.dropWhile Char.isWhitespace).reverse

/-- JavaScript `String.prototype.toUpperCase` (ASCII fragment). -/
def jsToUpper (s : JSString) : JSString := s.map Char.toUpper

/-- JavaScript `String.prototype.startsWith`. -/
def jsStartsWith (s pre : JSString) : Bool := pre.isPrefixOf s

/-- JavaScript `String.prototype.endsWith`. -/
def jsEndsWith (s suf : JSString) : Bool := suf.isSuffixOf s

/-- Lexicographic comparison of JavaScript strings by code unit, the default
`Array.prototype.sort` comparison used by `saveState`. -/
def jsLe : JSString → JSString → Bool
  | [], _ => true
  | _ :: _, [] => false
  | a :: as, b :: bs =>
    if a.toNat < b.toNat then true
    else if b.toNat < a.toNat then false
    else jsLe as bs

/-- `jsLe` as a relation, for the sorting lemmas. -/
def idLe (a b : JSString) : Prop := jsLe a b = true

instance : DecidableRel idLe := fun a b => by unfold idLe; infer_instance

instance : IsTotal JSString idLe where
  total := by
    intro a b
    induction a generalizing b with
    | nil => left; rfl
    | cons x xs ih =>
      cases b with
      | nil => right; rfl
      | cons y ys =>
        by_cases h1 : x.toNat < y.toNat
        · left; simp [idLe, jsLe, h1]
        · by_cases h2 : y.toNat < x.toNat
          · right; simp [idLe, jsLe, h1, h2]
          · rcases ih ys with h | h
            · left; simpa [idLe, jsLe, h1, h2] using h
            · right
              simp only [idLe, jsLe]
              rw [if_neg h2, if_neg (by omega)]
              exact h

instance : IsTrans JSString idLe where
  trans := by
    intro a b c hab hbc
    induction a generalizing b c with
    | nil => rfl
    | cons x xs ih =>
      cases b with
      | nil => simp [idLe, jsLe] at hab
      | cons y ys =>
        cases c with
        | nil => simp [idLe, jsLe] at hbc
        | cons z zs =>
          simp only [idLe, jsLe] at hab hbc ⊢
          split at hab
          · next h1 =>
            split at hbc
            · next h2 => rw [if_pos (by omega)]
            · next h2 =>
              split at hbc
              · exact absurd hbc (by simp)
              · next h3 => rw [if_pos (by omega)]
          · next h1 =>
            split at hab
            · exact absurd hab (by simp)
            · next h1b =>
              split at hbc
              · next h2 => rw [if_pos (by omega)]
              · next h2 =>
                split at hbc
                · exact absurd hbc (by simp)
                · next h3 =>
                  rw [if_neg (by omega), if_neg (by omega)]
                  exact ih _ _ hab hbc

instance : IsAntisymm JSString idLe where
  antisymm := by
    intro a b hab hba
    induction a generalizing b with
    | nil =>
      cases b with
      | nil => rfl
      | cons y ys => simp [idLe, jsLe] at hba
    | cons x xs ih =>
      cases b with
      | nil => simp [idLe, jsLe] at hab
      | cons y ys =>
        simp only [idLe, jsLe] at hab hba
        by_cases h1 : x.toNat < y.toNat
        · rw [if_neg (by omega), if_pos (by omega)] at hba
          exact absurd hba (by simp)
        · by_cases h2 : y.toNat < x.toNat
          · rw [if_neg h1, if_pos h2] at hab
            exact absurd hab (by simp)
          · rw [if_neg h1, if_neg h2] at hab
            rw [if_neg h2, if_neg h1] at hba
            have hxy : x = y := by
              have hn : x.toNat = y.toNat := by omega
              have := congrArg Char.ofNat hn
              rwa [Char.ofNat_toNat, Char.ofNat_toNat] at this
            rw [hxy, ih ys hab hba]

/-- `[...replied].sort()` in `saveState` (state.ts): ascending sort of the ids. -/
def sortIds (l : List JSString) : List JSString := l.insertionSort idLe

/-- JavaScript `Set.prototype.add`: append the element unless already present. -/
def addToSet (l : List JSString) (id : JSString) : List JSString :=
  if id ∈ l then l else l ++ [id]

/-!  reply-generator.ts  -/

/-- Quote cleanup from `generateReply` (reply-generator.ts lines 96-100):
if the first and last characters are both a double quote, remove exactly one
wrapping layer (`slice(1, -1)`), otherwise leave the text unchanged. -/
def stripWrappingQuotes (s : JSString) : JSString :=
  if jsStartsWith s (jstr "\"") && jsEndsWith s (jstr "\"") then
    (s.drop 1).dropLast
  else s

/-- Post-processing of a raw backend result in `generateReply`
(reply-generator.ts lines 88-102), in the code's order: first compare the
trimmed upper-cased result to the SKIP sentinel (returning `none`, the model's
`null`), then trim and strip one layer of wrapping double quotes. -/
def postProcess (reply : JSString) : Option JSString :=
  if jsToUpper (jsTrim reply) = jstr "SKIP" then none
  else some (stripWrappingQuotes (jsTrim reply))

/-!  state.ts  -/

/-- The durable state file: missing, unparseable JSON, or a parsed record whose
`replied` field may be absent. The write timestamp `updated_at` carries no
engine-relevant information and is abstracted away. -/
inductive StateFile
  | missing
  | unparseable
  | parsed (replied : Option (List JSString))
  deriving DecidableEq

/-- `loadState` (state.ts lines 22-34): a missing file or a parse failure gives
the empty set; otherwise `new Set(data.replied ?? [])`. -/
def loadState : StateFile → List JSString
  | .missing => []
  | .unparseable => []
  | .parsed replied => replied.getD []

/-- `saveState` (state.ts lines 43-58): write `[...replied].sort()` with a
fresh timestamp. -/
def saveState (replied : List JSString) : StateFile :=
  .parsed (some (sortIds replied))

/-- In-memory session state of index.ts (`repliedSet`) together with the
durable state file it writes. -/
structure EngineState where
  replied : List JSString
  stateFile : StateFile
  deriving DecidableEq

/-- End-of-scan flush: `saveState(getStatePath(), repliedSet)`. -/
def saveStateTo (st : EngineState) : EngineState :=
  { st with stateFile := saveState st.replied }

/-- `markReplied` (state.ts lines 63-70): add the comment id to the set, then
save the whole set to the file. -/
def markReplied (st : EngineState) (commentId : JSString) : EngineState :=
  let replied := addToSet st.replied commentId
  { replied := replied, stateFile := saveState replied }

/-!  types.ts data model  -/

structure Video where
  id : JSString
  title : JSString
  description : JSString
  deriving DecidableEq

structure Comment where
  id : JSString
  text : JSString
  author : JSString
  published : Option Int
  replyCount : Nat
  deriving DecidableEq

structure ThreadReply where
  author : JSString
  text : JSString
  isOurs : Bool
  published : Option Int
  deriving DecidableEq

/-!  youtube.ts raw API items  -/

/-- Snippet of one raw reply item from `youtube.comments.list`. -/
structure RawReplySnippet where
  authorChannelId : Option JSString
  authorDisplayName : Option JSString
  textDisplay : Option JSString
  publishedAt : Option Int
  deriving DecidableEq

/-- One raw reply item; the snippet may be absent. -/
structure RawReplyItem where
  snippet : Option RawReplySnippet
  deriving DecidableEq

/-- Snippet of a raw top-level comment (the
`item.snippet.topLevelComment.snippet` chain of `commentThreads.list`,
collapsed; an absent link in the chain is `none`). -/
structure RawCommentSnippet where
  publishedAt : Option Int
  textDisplay : Option JSString
  authorChannelId : Option JSString
  authorDisplayName : Option JSString
  deriving DecidableEq

/-- One raw top-level comment item of `commentThreads.list`. -/
structure RawCommentItem where
  commentId : JSString
  snippet : Option RawCommentSnippet
  totalReplyCount : Option Nat
  deriving DecidableEq

/-- Filter options of `getComments` (youtube.ts lines 101-107); `maxResults`
only caps the platform query, which the fetch-result parameter already
reflects, and the age cutoff computed from `maxCommentAgeDays` is passed
directly as `cutoff`. -/
structure GetCommentsOptions where
  minCommentLength : Nat
  channelId : JSString
  replyAsChannelId : JSString
  deriving DecidableEq

/-!  youtube.ts logic  -/

/-- `getComments` (youtube.ts lines 118-177): on a failed fetch return the
empty list; otherwise keep comments that have a snippet, pass the age filter
(`published < cutoff` drops; a missing/unparseable date never compares below
the cutoff, as in JavaScript), the length filter on the trimmed text, and the
self-authorship filter. -/
def getComments (fetchResult : Option (List RawCommentItem))
    (opts : GetCommentsOptions) (cutoff : Int) : List Comment :=
  match fetchResult with
  | none => []
  | some items =>
    items.filterMap fun item =>
      match item.snippet with
      | none => none
      | some s =>
        if (match s.publishedAt with
            | some p => decide (p < cutoff)
            | none => false) then none
        else
          let text := jsTrim (s.textDisplay.getD [])
          if text.length < opts.minCommentLength then none
          else
            let authorChannel := s.authorChannelId.getD []
            if authorChannel = opts.replyAsChannelId ∨ authorChannel = opts.channelId then
              none
            else
              some { id := item.commentId,
                     text := text,
                     author := s.authorDisplayName.getD (jstr "Unknown"),
                     published := s.publishedAt,
                     replyCount := item.totalReplyCount.getD 0 }

/-- `new Set([replyAsChannelId, channelId].filter(Boolean))` in
`getThreadContext`: the "ours" identifiers with empty strings removed. -/
def ourChannelIds (replyAsChannelId channelId : JSString) : List JSString :=
  [replyAsChannelId, channelId].filter (fun s => !s.isEmpty)

/-- Author-channel identifier of the chronologically last raw reply
(`items[items.length - 1].snippet?.authorChannelId?.value ?? ""`). -/
def lastReplyAuthorId (items : List RawReplyItem) : JSString :=
  ((items.getLast?.bind RawReplyItem.snippet).bind RawReplySnippet.authorChannelId).getD []

/-- Thread snapshot construction in `getThreadContext` (youtube.ts lines
231-246): keep items with a snippet, marking each reply ours by identifier
membership. -/
def buildThread (items : List RawReplyItem) (ours : List JSString) : List ThreadReply :=
  items.filterMap fun item =>
    item.snippet.map fun s =>
      { author := s.authorDisplayName.getD (jstr "Unknown"),
        text := jsTrim (s.textDisplay.getD []),
        isOurs := decide ((s.authorChannelId.getD []) ∈ ours),
        published := s.publishedAt }

/-- `getThreadContext` (youtube.ts lines 192-247). Result values follow the
source: `none` models the `null` return (we are the last reply, or the reply
fetch failed), `some []` the empty thread (new comment), `some thread` a
thread someone else continued. The reply fetch's outcome is the parameter
`fetchResult` (`none` = the fetch threw). -/
def getThreadContext (comment : Comment) (fetchResult : Option (List RawReplyItem))
    (replyAsChannelId channelId : JSString) : Option (List ThreadReply) :=
  if comment.replyCount = 0 then some []
  else
    match fetchResult with
    | none => none
    | some items =>
      if items.isEmpty then some []
      else if lastReplyAuthorId items ∈ ourChannelIds replyAsChannelId channelId then none
      else some (buildThread items (ourChannelIds replyAsChannelId channelId))

/-- One unit of scan work (`ScanTask` in youtube.ts lines 310-314). -/
structure ScanTask where
  video : Video
  comment : Comment
  thread : List ThreadReply
  deriving DecidableEq

/-- Body of the per-comment loop of `scanVideoForTasks` (youtube.ts lines
341-360): skip an already-replied new comment, then consult
`getThreadContext`; `none` produces no task, otherwise emit the task. -/
def scanCommentStep (video : Video) (threadFetch : JSString → Option (List RawReplyItem))
    (replyAsChannelId channelId : JSString) (repliedSet : List JSString)
    (comment : Comment) : Option ScanTask :=
  if comment.replyCount = 0 ∧ comment.id ∈ repliedSet then none
  else
    match getThreadContext comment (threadFetch comment.id) replyAsChannelId channelId with
    | none => none
    | some thread => some ⟨video, comment, thread⟩

/-- `scanVideoForTasks` (youtube.ts lines 320-363): filter the video's
comments, then run the per-comment loop. -/
def scanVideoForTasks (video : Video) (commentFetch : Option (List RawCommentItem))
    (threadFetch : JSString → Option (List RawReplyItem)) (opts : GetCommentsOptions)
    (cutoff : Int) (repliedSet : List JSString) : List ScanTask :=
  (getComments commentFetch opts cutoff).filterMap
    (scanCommentStep video threadFetch opts.replyAsChannelId opts.channelId repliedSet)

/-!  index.ts scan orchestration  -/

inductive ScanMode
  | dryRun
  | interactive
  | auto
  deriving DecidableEq

inductive ScanStatus
  | pending
  | posted
  | skipped
  deriving DecidableEq

/-- Externally visible scan result item (types.ts `ScanItem`). -/
structure ScanItem where
  commentId : JSString
  author : JSString
  text : JSString
  videoTitle : JSString
  videoDescription : JSString
  videoId : JSString
  published : Option Int
  isThread : Bool
  thread : List ThreadReply
  proposedReply : Option JSString
  status : ScanStatus
  deriving DecidableEq

/-- The `items.push(...)` record built in `handleYoutubeScan` for a task. -/
def mkScanItem (task : ScanTask) (proposedReply : Option JSString)
    (status : ScanStatus) : ScanItem :=
  { commentId := task.comment.id,
    author := task.comment.author,
    text := task.comment.text,
    videoTitle := task.video.title,
    videoDescription := task.video.description,
    videoId := task.video.id,
    published := task.comment.published,
    isThread := !task.thread.isEmpty,
    thread := task.thread,
    proposedReply := proposedReply,
    status := status }

/-- Deterministic environment of one scan: the platform reads, the generation
backend and the post outcome, all keyed by id, plus the configuration. -/
structure ScanEnv where
  videos : List Video
  commentFetch : JSString → Option (List RawCommentItem)
  threadFetch : JSString → Option (List RawReplyItem)
  gen : JSString → Option JSString
  postOk : JSString → Bool
  hasBackend : Bool
  opts : GetCommentsOptions
  cutoff : Int
  limit : Option Nat

/-- JavaScript truthiness of `proposedReply` in
`mode === "auto" && proposedReply`: non-null and non-empty. -/
def optionTruthy : Option JSString → Bool
  | some r => !r.isEmpty
  | none => false

/-- The `proposedReply` computed for a task in `handleYoutubeScan` (index.ts
lines 142-153): `generateReply`'s result — the raw backend output passed
through `postProcess`, with `none` for a backend exception — taken only when a
backend is available. -/
def proposedReplyFor (env : ScanEnv) (task : ScanTask) : Option JSString :=
  if env.hasBackend then (env.gen task.comment.id).bind postProcess else none

/-- One iteration of the task loop of `handleYoutubeScan` (index.ts lines
138-228). A null proposal with a backend marks the comment replied in memory
and yields a skipped item; in auto mode a truthy proposal is posted, with
`markReplied` (flush included) on success and a pending item with no state
change on failure; otherwise the item is pending with no state change. -/
def processTask (mode : ScanMode) (env : ScanEnv) (st : EngineState)
    (task : ScanTask) : EngineState × ScanItem :=
  if env.hasBackend ∧ proposedReplyFor env task = none then
    ({ st with replied := addToSet st.replied task.comment.id },
     mkScanItem task none .skipped)
  else if mode = ScanMode.auto ∧ optionTruthy (proposedReplyFor env task) then
    if env.postOk task.comment.id then
      (markReplied st task.comment.id, mkScanItem task (proposedReplyFor env task) .posted)
    else
      (st, mkScanItem task (proposedReplyFor env task) .pending)
  else
    (st, mkScanItem task (proposedReplyFor env task) .pending)

/-- The task loop of `handleYoutubeScan`, threading the session state task by
task (the state written by one task is the state the next task starts from). -/
def runScanLoop (mode : ScanMode) (env : ScanEnv) :
    EngineState → List ScanTask → EngineState × List ScanItem
  | st, [] => (st, [])
  | st, task :: rest =>
    let r := processTask mode env st task
    let rr := runScanLoop mode env r.1 rest
    (rr.1, r.2 :: rr.2)

/-- `limit ? allTasks.slice(0, limit) : allTasks` — a zero limit is falsy in
JavaScript and keeps all tasks. -/
def applyLimit (limit : Option Nat) (tasks : List ScanTask) : List ScanTask :=
  match limit with
  | none => tasks
  | some n => if n = 0 then tasks else tasks.take n

/-- Cross-video task collection of `handleYoutubeScan` (index.ts lines
122-131): per-video results concatenated in video order. -/
def scanAllVideos (env : ScanEnv) (repliedSet : List JSString) : List ScanTask :=
  (env.videos.map fun v =>
    scanVideoForTasks v (env.commentFetch v.id) env.threadFetch env.opts env.cutoff
      repliedSet).flatten

/-- `handleYoutubeScan` (index.ts lines 93-245): collect tasks across videos
against the current replied set, apply the limit, run the task loop, and in
non-auto modes flush the replied set once at the end. -/
def handleYoutubeScan (env : ScanEnv) (mode : ScanMode) (st : EngineState) :
    EngineState × List ScanItem :=
  let tasks := applyLimit env.limit (scanAllVideos env st.replied)
  let r := runScanLoop mode env st tasks
  let st' := if mode ≠ ScanMode.auto then saveStateTo r.1 else r.1
  (st', r.2)

/-- `handleYoutubeReply` (index.ts lines 379-402): post the reply; on success
mark the comment replied (which also flushes), on failure change nothing. -/
def handleYoutubeReply (postOk : JSString → Bool) (st : EngineState)
    (commentId : JSString) : EngineState × Bool :=
  if postOk commentId then (markReplied st commentId, true) else (st, false)

/-!  Concrete fixtures used by witnesses and counterexamples  -/

/-- One video, one fresh eligible comment `c1` with no replies, a backend
whose generation always returns the SKIP sentinel, posting always succeeding. -/
def skipEnv : ScanEnv :=
  { videos := [{ id := jstr "v1", title := jstr "T", description := [] }],
    commentFetch := fun _ =>
      some [{ commentId := jstr "c1",
              snippet := some { publishedAt := some 1,
                                textDisplay := some (jstr "Love this!"),
                                authorChannelId := some (jstr "user9"),
                                authorDisplayName := some (jstr "Fan") },
              totalReplyCount := some 0 }],
    threadFetch := fun _ => none,
    gen := fun _ => some (jstr "SKIP"),
    postOk := fun _ => true,
    hasBackend := true,
    opts := { minCommentLength := 0, channelId := jstr "ch", replyAsChannelId := jstr "ra" },
    cutoff := 0,
    limit := none }

/-- `skipEnv` with no generation backend configured. -/
def noBackendEnv : ScanEnv := { skipEnv with hasBackend := false }

/-- A backend environment whose generation returns a plain reply text. -/
def thanksEnv : ScanEnv := { skipEnv with gen := fun _ => some (jstr "Thanks!") }

/-- `thanksEnv` with posting always failing. -/
def thanksEnvPostFail : ScanEnv := { thanksEnv with postOk := fun _ => false }

/-- A task for the new comment `c1`. -/
def task1 : ScanTask :=
  { video := { id := jstr "v1", title := jstr "T", description := [] },
    comment := { id := jstr "c1", text := jstr "Love this!", author := jstr "Fan",
                 published := some 1, replyCount := 0 },
    thread := [] }

/-!  Helper lemmas  -/

theorem mem_sortIds {l : List JSString} {x : JSString} : x ∈ sortIds l ↔ x ∈ l :=
  (List.perm_insertionSort idLe l).mem_iff

theorem sorted_sortIds (l : List JSString) : (sortIds l).Sorted idLe :=
  List.sorted_insertionSort idLe l

theorem sortIds_eq_of_mem_iff {s t : List JSString} (hs : s.Nodup) (ht : t.Nodup)
    (h : ∀ x, x ∈ s ↔ x ∈ t) : sortIds s = sortIds t := by
  apply List.eq_of_perm_of_sorted (r := idLe)
  · exact ((List.perm_insertionSort _ s).trans
      ((List.perm_ext_iff_of_nodup hs ht).mpr h)).trans (List.perm_insertionSort _ t).symm
  · exact sorted_sortIds s
  · exact sorted_sortIds t

theorem mem_addToSet {l : List JSString} {id x : JSString} :
    x ∈ addToSet l id ↔ x ∈ l ∨ x = id := by
  unfold addToSet
  split
  · next h =>
    constructor
    · exact fun hx => Or.inl hx
    · rintro (hx | rfl)
      · exact hx
      · exact h
  · simp

theorem subset_addToSet {l : List JSString} {id : JSString} : l ⊆ addToSet l id :=
  fun _ hx => mem_addToSet.mpr (Or.inl hx)

theorem self_mem_addToSet {l : List JSString} {id : JSString} : id ∈ addToSet l id :=
  mem_addToSet.mpr (Or.inr rfl)

theorem markReplied_replied (st : EngineState) (id : JSString) :
    (markReplied st id).replied = addToSet st.replied id := rfl

theorem markReplied_stateFile (st : EngineState) (id : JSString) :
    (markReplied st id).stateFile = saveState (addToSet st.replied id) := rfl

theorem processTask_replied_subset (mode : ScanMode) (env : ScanEnv) (st : EngineState)
    (task : ScanTask) : st.replied ⊆ (processTask mode env st task).1.replied := by
  unfold processTask
  split
  · exact fun x hx => subset_addToSet hx
  · split
    · split
      · exact fun x hx => subset_addToSet hx
      · exact fun x hx => hx
    · exact fun x hx => hx

theorem processTask_replied_new_mem (mode : ScanMode) (env : ScanEnv) (st : EngineState)
    (task : ScanTask) (x : JSString)
    (hx : x ∈ (processTask mode env st task).1.replied) :
    x ∈ st.replied ∨ x = task.comment.id := by
  unfold processTask at hx
  split at hx
  · exact mem_addToSet.mp hx
  · split at hx
    · split at hx
      · exact mem_addToSet.mp hx
      · exact Or.inl hx
    · exact Or.inl hx

theorem runScanLoop_replied_subset (mode : ScanMode) (env : ScanEnv) :
    ∀ (tasks : List ScanTask) (st : EngineState),
      st.replied ⊆ (runScanLoop mode env st tasks).1.replied := by
  intro tasks
  induction tasks with
  | nil => intro st x hx; exact hx
  | cons task rest ih =>
    intro st x hx
    simp only [runScanLoop]
    exact ih _ (processTask_replied_subset mode env st task hx)

theorem runScanLoop_replied_new_mem (mode : ScanMode) (env : ScanEnv) :
    ∀ (tasks : List ScanTask) (st : EngineState) (x : JSString),
      x ∈ (runScanLoop mode env st tasks).1.replied →
      x ∈ st.replied ∨ ∃ t ∈ tasks, t.comment.id = x := by
  intro tasks
  induction tasks with
  | nil => intro st x hx; exact Or.inl hx
  | cons task rest ih =>
    intro st x hx
    simp only [runScanLoop] at hx
    rcases ih _ _ hx with h | ⟨t, ht, rfl⟩
    · rcases processTask_replied_new_mem mode env st task x h with h' | rfl
      · exact Or.inl h'
      · exact Or.inr ⟨task, by simp, rfl⟩
    · exact Or.inr ⟨t, by simp [ht], rfl⟩

/-!  Claim theorems  -/

/-- C5: `saveState` followed by `loadState` yields a set with exactly the
membership that was saved; sets with equal membership (any insertion order)
produce the same file, whose `replied` list is in ascending sorted order; and
`loadState` of a missing file or of unparseable content is the empty set,
never a failure. -/
theorem c5_state_roundtrip :
    (∀ (s : List JSString) (x : JSString), x ∈ loadState (saveState s) ↔ x ∈ s) ∧
    (∀ s : List JSString, ∃ l, saveState s = .parsed (some l) ∧ l.Sorted idLe ∧
      ∀ x, x ∈ l ↔ x ∈ s) ∧
    (∀ s t : List JSString, s.Nodup → t.Nodup → (∀ x, x ∈ s ↔ x ∈ t) →
      saveState s = saveState t) ∧
    loadState .missing = [] ∧ loadState .unparseable = [] := by
  refine ⟨?_, ?_, ?_, rfl, rfl⟩
  · intro s x
    simp [loadState, saveState, mem_sortIds]
  · intro s
    exact ⟨sortIds s, rfl, sorted_sortIds s, fun x => mem_sortIds⟩
  · intro s t hs ht h
    simp only [saveState, sortIds_eq_of_mem_iff hs ht h]

/-- C5 witness: two insertion orders of the same two ids produce the same
state file. -/
theorem c5_witness :
    saveState [jstr "c2", jstr "c1"] = saveState [jstr "c1", jstr "c2"] :=
  c5_state_roundtrip.2.2.1 _ _ (by decide) (by decide)
    (by intro x; simp [List.mem_cons, or_comm])

/-- C6 counterexample: the code compares the trimmed upper-cased result to the
SKIP sentinel BEFORE quote-stripping, so a backend result consisting of SKIP
wrapped in double quotes is not classified as a skip decision — it is returned
as the reply text `SKIP` after its quotes are stripped. -/
theorem c6_counterexample : postProcess (jstr "\"SKIP\"") = some (jstr "SKIP") := by
  decide

/-- C6 amended: post-processing applies the SKIP comparison first, to the
trimmed upper-cased raw result, and only strips one layer of wrapping double
quotes from non-SKIP results; consequently a double-quote-wrapped SKIP is
surfaced by the scan loop as a pending item whose proposed reply is the text
`SKIP`, with no state mutation, rather than as a skip decision. -/
theorem c6_amended :
    (∀ r : JSString, postProcess r = none ↔ jsToUpper (jsTrim r) = jstr "SKIP") ∧
    (∀ (env : ScanEnv) (st : EngineState) (task : ScanTask) (mode : ScanMode),
      env.hasBackend = true → mode ≠ ScanMode.auto →
      env.gen task.comment.id = some (jstr "\"SKIP\"") →
      processTask mode env st task = (st, mkScanItem task (some (jstr "SKIP")) .pending)) := by
  constructor
  · intro r
    unfold postProcess
    split <;> simp_all
  · intro env st task mode hb hm hg
    have hp : proposedReplyFor env task = some (jstr "SKIP") := by
      simp only [proposedReplyFor, hb, if_true, hg, Option.some_bind]
      decide
    unfold processTask
    rw [hp]
    rw [if_neg (by simp), if_neg (by simp [hm])]

/-- C6 witness for the amended claim: in interactive mode with a backend that
returns a double-quote-wrapped SKIP, the task yields a pending item with reply
text `SKIP` and an unchanged state. -/
theorem c6_witness :
    processTask ScanMode.interactive
      { videos := [], commentFetch := fun _ => none, threadFetch := fun _ => none,
        gen := fun _ => some (jstr "\"SKIP\""), postOk := fun _ => false,
        hasBackend := true,
        opts := { minCommentLength := 0, channelId := [], replyAsChannelId := [] },
        cutoff := 0, limit := none }
      { replied := [], stateFile := .missing }
      { video := { id := [], title := [], description := [] },
        comment := { id := jstr "c1", text := [], author := [], published := none,
                     replyCount := 0 },
        thread := [] } =
    ({ replied := [], stateFile := .missing },
      mkScanItem
        { video := { id := [], title := [], description := [] },
          comment := { id := jstr "c1", text := [], author := [], published := none,
                       replyCount := 0 },
          thread := [] }
        (some (jstr "SKIP")) .pending) :=
  c6_amended.2 _ _ _ _ rfl (by decide) rfl

/-- C7: SKIP detection is case- and whitespace-insensitive — any result whose
trimmed upper-cased form is the literal SKIP is classified as a skip, the
spec's example inputs included, while SKIPPED and longer sentences are not. -/
theorem c7_skip_detection :
    (∀ r : JSString, jsToUpper (jsTrim r) = jstr "SKIP" → postProcess r = none) ∧
    postProcess (jstr "SKIP") = none ∧
    postProcess (jstr "skip") = none ∧
    postProcess (jstr " Skip ") = none ∧
    postProcess (jstr "SKIPPED") ≠ none ∧
    postProcess (jstr "this is not a skip") ≠ none := by
  refine ⟨?_, by decide, by decide, by decide, by decide, by decide⟩
  intro r h
  simp [postProcess, h]

/-- C7 witness: a mixed-case SKIP classifies as a skip. -/
theorem c7_witness : postProcess (jstr "sKiP") = none :=
  c7_skip_detection.1 (jstr "sKiP") (by decide)

/-- C8: quote-stripping applies only when the first and last characters of the
trimmed text are both a double quote, and then removes exactly one wrapping
layer; interior double quotes, single-quote wrapping and the empty string are
left untouched. -/
theorem c8_quote_stripping :
    (∀ s : JSString, ¬(jsStartsWith s (jstr "\"") = true ∧ jsEndsWith s (jstr "\"") = true) →
      stripWrappingQuotes s = s) ∧
    (∀ s : JSString, jsStartsWith s (jstr "\"") = true → jsEndsWith s (jstr "\"") = true →
      stripWrappingQuotes s = (s.drop 1).dropLast) ∧
    postProcess (jstr "She said \"wow\" today") = some (jstr "She said \"wow\" today") ∧
    postProcess (jstr "'quoted'") = some (jstr "'quoted'") ∧
    postProcess (jstr "") = some (jstr "") ∧
    stripWrappingQuotes (jstr "\"\"hi\"\"") = jstr "\"hi\"" := by
  refine ⟨?_, ?_, by decide, by decide, by decide, by decide⟩
  · intro s h
    unfold stripWrappingQuotes
    rw [if_neg (by simpa [Bool.and_eq_true] using h)]
  · intro s h1 h2
    unfold stripWrappingQuotes
    rw [if_pos (by simp [h1, h2])]

/-- C8 witness: plain text without wrapping quotes is untouched. -/
theorem c8_witness : stripWrappingQuotes (jstr "abc") = jstr "abc" :=
  c8_quote_stripping.1 (jstr "abc") (by decide)

/-- C1: for a comment whose reply thread is actually fetched (replyCount ≠ 0,
fetch succeeded), `getThreadContext` returns the nothing-to-do `null` exactly
when the fetch returned at least one reply and the chronologically last
reply's author identifier is in the ours set (replying account or channel
owner); a comment with replyCount = 0, or a fetch returning zero replies,
yields the new-comment decision with an empty thread, never the null; and the
scan orchestrator emits no ReplyTask for any comment whose decision is the
null. -/
theorem c1_nothing_to_do :
    (∀ (comment : Comment) (items : List RawReplyItem) (ra ch : JSString),
      comment.replyCount ≠ 0 →
      (getThreadContext comment (some items) ra ch = none ↔
        items ≠ [] ∧ lastReplyAuthorId items ∈ ourChannelIds ra ch)) ∧
    (∀ (comment : Comment) (fetchResult : Option (List RawReplyItem)) (ra ch : JSString),
      comment.replyCount = 0 → getThreadContext comment fetchResult ra ch = some []) ∧
    (∀ (comment : Comment) (ra ch : JSString),
      getThreadContext comment (some []) ra ch = some []) ∧
    (∀ (video : Video) (threadFetch : JSString → Option (List RawReplyItem))
      (ra ch : JSString) (repliedSet : List JSString) (comments : List Comment)
      (t : ScanTask),
      t ∈ comments.filterMap (scanCommentStep video threadFetch ra ch repliedSet) →
      getThreadContext t.comment (threadFetch t.comment.id) ra ch ≠ none) := by
  refine ⟨?_, ?_, ?_, ?_⟩
  · intro comment items ra ch h
    cases items with
    | nil => simp [getThreadContext, h]
    | cons a as =>
      by_cases hm : lastReplyAuthorId (a :: as) ∈ ourChannelIds ra ch
      · simp [getThreadContext, h, hm]
      · simp [getThreadContext, h, hm]
  · intro comment fetchResult ra ch h
    unfold getThreadContext
    rw [if_pos h]
  · intro comment ra ch
    by_cases h : comment.replyCount = 0 <;> simp [getThreadContext, h]
  · intro video threadFetch ra ch repliedSet comments t ht
    rw [List.mem_filterMap] at ht
    obtain ⟨c, _, hstep⟩ := ht
    unfold scanCommentStep at hstep
    split at hstep
    · exact absurd hstep (by simp)
    · revert hstep
      cases hctx : getThreadContext c (threadFetch c.id) ra ch with
      | none => intro hstep; exact absurd hstep (by simp)
      | some thread =>
        intro hstep
        obtain rfl := Option.some.inj hstep
        simp [hctx]

/-- C1 witness: replyCount 2, a one-reply thread whose last author is the
replying account — the decision is the nothing-to-do null. -/
theorem c1_witness :
    getThreadContext
      { id := jstr "c2", text := [], author := [], published := none, replyCount := 2 }
      (some [{ snippet := some { authorChannelId := some (jstr "ra"),
                                 authorDisplayName := none, textDisplay := none,
                                 publishedAt := none } }])
      (jstr "ra") (jstr "ch") = none :=
  (c1_nothing_to_do.1 _ _ _ _ (by decide)).mpr (by decide)

/-- C2: the orchestrator loop never emits a task for a replyCount-zero comment
whose id is in the replied set — on a subsequent scan with unchanged input no
ReplyTask is produced for it — while for a comment with replyCount ≠ 0 the
per-comment step does not depend on the replied set at all, so such a comment
is still reconsidered along the thread-continuation path even when its id is
in the replied set. -/
theorem c2_replied_set_skip :
    (∀ (video : Video) (threadFetch : JSString → Option (List RawReplyItem))
      (ra ch : JSString) (repliedSet : List JSString) (comments : List Comment)
      (t : ScanTask),
      t ∈ comments.filterMap (scanCommentStep video threadFetch ra ch repliedSet) →
      ¬(t.comment.replyCount = 0 ∧ t.comment.id ∈ repliedSet)) ∧
    (∀ (video : Video) (threadFetch : JSString → Option (List RawReplyItem))
      (ra ch : JSString) (rs rs' : List JSString) (comment : Comment),
      comment.replyCount ≠ 0 →
      scanCommentStep video threadFetch ra ch rs comment =
        scanCommentStep video threadFetch ra ch rs' comment) := by
  constructor
  · intro video threadFetch ra ch repliedSet comments t ht
    rw [List.mem_filterMap] at ht
    obtain ⟨c, _, hstep⟩ := ht
    unfold scanCommentStep at hstep
    split at hstep
    · exact absurd hstep (by simp)
    · next hguard =>
      revert hstep
      cases getThreadContext c (threadFetch c.id) ra ch with
      | none => intro hstep; exact absurd hstep (by simp)
      | some thread =>
        intro hstep
        obtain rfl := Option.some.inj hstep
        exact hguard
  · intro video threadFetch ra ch rs rs' comment h
    unfold scanCommentStep
    rw [if_neg (by simp [h]), if_neg (by simp [h])]

/-- C2 witness: for a comment with replyCount 1 the step is the same whether
or not its id is in the replied set. -/
theorem c2_witness :
    scanCommentStep { id := [], title := [], description := [] } (fun _ => none)
      (jstr "ra") (jstr "ch") []
      { id := jstr "c2", text := [], author := [], published := none, replyCount := 1 } =
    scanCommentStep { id := [], title := [], description := [] } (fun _ => none)
      (jstr "ra") (jstr "ch") [jstr "c2"]
      { id := jstr "c2", text := [], author := [], published := none, replyCount := 1 } :=
  c2_replied_set_skip.2 _ _ _ _ _ _ _ (by decide)

/-- C9: platform read failures are isolated. A failed top-level-comment fetch
yields an empty eligible set and an empty task list for that video, and the
multi-video scan is the concatenation of the other videos' results; a failed
reply-thread fetch removes exactly that comment from the task list, the
remaining comments still being processed; and the task loop never adds an id
to the replied set that is not the id of some processed task, so a comment
that produced no task is never recorded as replied. -/
theorem c9_read_failures_isolated :
    (∀ (opts : GetCommentsOptions) (cutoff : Int), getComments none opts cutoff = []) ∧
    (∀ (video : Video) (threadFetch : JSString → Option (List RawReplyItem))
        (opts : GetCommentsOptions) (cutoff : Int) (repliedSet : List JSString),
      scanVideoForTasks video none threadFetch opts cutoff repliedSet = []) ∧
    (∀ (env : ScanEnv) (repliedSet : List JSString) (v : Video) (l1 l2 : List Video),
      env.commentFetch v.id = none →
      scanAllVideos { env with videos := l1 ++ v :: l2 } repliedSet =
        scanAllVideos { env with videos := l1 } repliedSet ++
          scanAllVideos { env with videos := l2 } repliedSet) ∧
    (∀ (video : Video) (threadFetch : JSString → Option (List RawReplyItem))
        (ra ch : JSString) (repliedSet : List JSString) (c : Comment)
        (l1 l2 : List Comment),
      threadFetch c.id = none → c.replyCount ≠ 0 →
      (l1 ++ c :: l2).filterMap (scanCommentStep video threadFetch ra ch repliedSet) =
        l1.filterMap (scanCommentStep video threadFetch ra ch repliedSet) ++
          l2.filterMap (scanCommentStep video threadFetch ra ch repliedSet)) ∧
    (∀ (mode : ScanMode) (env : ScanEnv) (st : EngineState) (tasks : List ScanTask)
        (x : JSString),
      x ∉ st.replied → (∀ t ∈ tasks, t.comment.id ≠ x) →
      x ∉ (runScanLoop mode env st tasks).1.replied) := by
  refine ⟨fun _ _ => rfl, fun _ _ _ _ _ => rfl, ?_, ?_, ?_⟩
  · intro env repliedSet v l1 l2 h
    simp [scanAllVideos, h, scanVideoForTasks, getComments]
  · intro video threadFetch ra ch repliedSet c l1 l2 h hrc
    have hstep : scanCommentStep video threadFetch ra ch repliedSet c = none := by
      unfold scanCommentStep
      rw [if_neg (by simp [hrc]), h]
      unfold getThreadContext
      rw [if_neg hrc]
    simp [List.filterMap_append, List.filterMap_cons, hstep]
  · intro mode env st tasks x hx htasks hmem
    rcases runScanLoop_replied_new_mem mode env tasks st x hmem with h | ⟨t, ht, h⟩
    · exact hx h
    · exact htasks t ht h

/-- C9 witness: a comment with replyCount 1 whose reply fetch fails is dropped
from the task list while the (empty) remainder is unaffected. -/
theorem c9_witness :
    ((([] : List Comment) ++
        ({ id := jstr "c3", text := [], author := [],
           published := none, replyCount := 1 } : Comment) :: []).filterMap
      (scanCommentStep { id := [], title := [], description := [] } (fun _ => none)
        (jstr "ra") (jstr "ch") [])) =
    (([] : List Comment).filterMap
      (scanCommentStep { id := [], title := [], description := [] } (fun _ => none)
        (jstr "ra") (jstr "ch") []) ++
     ([] : List Comment).filterMap
      (scanCommentStep { id := [], title := [], description := [] } (fun _ => none)
        (jstr "ra") (jstr "ch") [])) :=
  c9_read_failures_isolated.2.2.2.1 _ _ _ _ _ _ _ _ rfl (by decide)

/-- C3: in auto mode with a backend, for a task whose generated proposal is a
non-empty text: if the post succeeds, the item's status is posted, the comment
id is in the replied set, and the state file is flushed to exactly that set —
the id is readable back from the store — before the next task starts from this
state (the loop threads the returned state into the next task); if the post
fails, the item's status is pending — never skipped — and the engine state,
durable file included, is completely unchanged. -/
theorem c3_auto_mode_post :
    ∀ (env : ScanEnv) (st : EngineState) (task : ScanTask) (r : JSString),
      env.hasBackend = true →
      (env.gen task.comment.id).bind postProcess = some r →
      r ≠ [] →
      ((env.postOk task.comment.id = true →
        ((processTask .auto env st task).2.status = .posted ∧
         task.comment.id ∈ (processTask .auto env st task).1.replied ∧
         (processTask .auto env st task).1.stateFile =
           saveState (processTask .auto env st task).1.replied ∧
         task.comment.id ∈ loadState (processTask .auto env st task).1.stateFile)) ∧
       (env.postOk task.comment.id = false →
        ((processTask .auto env st task).2.status = .pending ∧
         (processTask .auto env st task).1 = st))) := by
  intro env st task r hb hg hr
  have hp : proposedReplyFor env task = some r := by
    simp [proposedReplyFor, hb, hg]
  unfold processTask
  rw [hp]
  rw [if_neg (by simp [hb]), if_pos ⟨rfl, by simp [optionTruthy, hr]⟩]
  constructor
  · intro hpost
    rw [if_pos hpost]
    refine ⟨rfl, self_mem_addToSet, rfl, ?_⟩
    show task.comment.id ∈ sortIds (addToSet st.replied task.comment.id)
    exact mem_sortIds.mpr self_mem_addToSet
  · intro hpost
    rw [if_neg (by simp [hpost])]
    exact ⟨rfl, rfl⟩

/-- C3 witness: a successful auto-mode post marks and flushes `c1`, and a
failing one leaves the state untouched with a pending item. -/
theorem c3_witness :
    ((processTask .auto thanksEnv { replied := [], stateFile := .missing } task1).2.status =
        .posted ∧
     task1.comment.id ∈
        (processTask .auto thanksEnv { replied := [], stateFile := .missing } task1).1.replied ∧
     (processTask .auto thanksEnv { replied := [], stateFile := .missing } task1).1.stateFile =
        saveState
          (processTask .auto thanksEnv { replied := [], stateFile := .missing } task1).1.replied ∧
     task1.comment.id ∈
        loadState
          (processTask .auto thanksEnv { replied := [], stateFile := .missing } task1).1.stateFile) ∧
    ((processTask .auto thanksEnvPostFail { replied := [], stateFile := .missing } task1).2.status =
        .pending ∧
     (processTask .auto thanksEnvPostFail { replied := [], stateFile := .missing } task1).1 =
        { replied := [], stateFile := .missing }) :=
  ⟨(c3_auto_mode_post thanksEnv _ task1 (jstr "Thanks!") rfl (by decide) (by decide)).1 rfl,
   (c3_auto_mode_post thanksEnvPostFail _ task1 (jstr "Thanks!") rfl (by decide) (by decide)).2 rfl⟩

/-- C10: the replied set is monotone — every engine operation (a scan-loop
task in any mode, SKIP classification and posting included; `markReplied`; the
end-of-scan flush; posting through `handleYoutubeReply`; a whole
`handleYoutubeScan` in any mode) only inserts into the replied set, and a
state file written from any superset of the set keeps every id present in it. -/
theorem c10_replied_monotone :
    (∀ (mode : ScanMode) (env : ScanEnv) (st : EngineState) (task : ScanTask),
      st.replied ⊆ (processTask mode env st task).1.replied) ∧
    (∀ (st : EngineState) (id : JSString), st.replied ⊆ (markReplied st id).replied) ∧
    (∀ st : EngineState, (saveStateTo st).replied = st.replied) ∧
    (∀ (postOk : JSString → Bool) (st : EngineState) (id : JSString),
      st.replied ⊆ (handleYoutubeReply postOk st id).1.replied) ∧
    (∀ (env : ScanEnv) (mode : ScanMode) (st : EngineState),
      st.replied ⊆ (handleYoutubeScan env mode st).1.replied) ∧
    (∀ s t : List JSString, s ⊆ t → ∀ x ∈ s, x ∈ loadState (saveState t)) := by
  refine ⟨processTask_replied_subset, ?_, fun _ => rfl, ?_, ?_, ?_⟩
  · intro st id x hx
    exact subset_addToSet hx
  · intro postOk st id x hx
    unfold handleYoutubeReply
    split
    · exact subset_addToSet hx
    · exact hx
  · intro env mode st x hx
    simp only [handleYoutubeScan]
    split
    · exact runScanLoop_replied_subset _ _ _ _ hx
    · exact runScanLoop_replied_subset _ _ _ _ hx
  · intro s t hsub x hxs
    show x ∈ sortIds t
    exact mem_sortIds.mpr (hsub hxs)

/-- C10 witness: an id present in a set is present in a state file written
from a superset. -/
theorem c10_witness : jstr "a" ∈ loadState (saveState [jstr "a", jstr "b"]) :=
  c10_replied_monotone.2.2.2.2.2 [jstr "a"] [jstr "a", jstr "b"]
    (by intro y hy; simp at hy; simp [hy]) (jstr "a") (by simp)

/-- In a non-auto mode, a task whose proposal is non-null whenever a backend
is available changes no state and yields a pending item. -/
theorem processTask_no_mutation (mode : ScanMode) (env : ScanEnv) (st : EngineState)
    (task : ScanTask) (hmode : mode ≠ ScanMode.auto)
    (hB : env.hasBackend = true → (proposedReplyFor env task).isSome) :
    processTask mode env st task =
      (st, mkScanItem task (proposedReplyFor env task) .pending) := by
  unfold processTask
  rw [if_neg, if_neg (by simp [hmode])]
  rintro ⟨hb, hnone⟩
  have := hB hb
  rw [hnone] at this
  exact absurd this (by simp)

/-- In a non-auto mode with no SKIP/error proposals, the task loop leaves the
state unchanged and maps each task to a pending item. -/
theorem runScanLoop_no_mutation (mode : ScanMode) (env : ScanEnv)
    (hmode : mode ≠ ScanMode.auto)
    (hB : ∀ task : ScanTask, env.hasBackend = true → (proposedReplyFor env task).isSome) :
    ∀ (tasks : List ScanTask) (st : EngineState),
      runScanLoop mode env st tasks =
        (st, tasks.map fun t => mkScanItem t (proposedReplyFor env t) .pending) := by
  intro tasks
  induction tasks with
  | nil => intro st; rfl
  | cons task rest ih =>
    intro st
    simp only [runScanLoop, processTask_no_mutation mode env st task hmode (hB task), ih,
      List.map_cons]

/-- C4 counterexample: with a backend that classifies the only comment as
SKIP, the first dry-run scan returns a different item list than the second
(one skipped item versus none) and mutates durable state (the skip marker is
persisted), so dry-run scanning is neither idempotent nor side-effect-free as
stated. -/
theorem c4_counterexample :
    (handleYoutubeScan skipEnv .dryRun { replied := [], stateFile := .missing }).2 ≠
      (handleYoutubeScan skipEnv .dryRun
        (handleYoutubeScan skipEnv .dryRun { replied := [], stateFile := .missing }).1).2 ∧
    (handleYoutubeScan skipEnv .dryRun { replied := [], stateFile := .missing }).1 ≠
      { replied := [], stateFile := .missing } := by
  decide

/-- C4 amended: running a dry-run scan twice with unchanged platform inputs
yields identical item lists and an unchanged replied-set membership, and the
second run's final state equals the first's, PROVIDED no processed task is
classified as SKIP or fails generation (in particular whenever no backend is
available); the state file is still rewritten at the end of each run (only
its timestamp differs), and when a SKIP does occur the skip marker is
persisted even in dry-run, so the runs differ as the counterexample shows. -/
theorem c4_dry_run_idempotent_unless_skip :
    ∀ (env : ScanEnv) (st : EngineState),
      (∀ id, env.hasBackend = true → ((env.gen id).bind postProcess).isSome) →
      ((handleYoutubeScan env .dryRun st).1.replied = st.replied ∧
       (handleYoutubeScan env .dryRun
          (handleYoutubeScan env .dryRun st).1).2 = (handleYoutubeScan env .dryRun st).2 ∧
       (handleYoutubeScan env .dryRun
          (handleYoutubeScan env .dryRun st).1).1 = (handleYoutubeScan env .dryRun st).1) := by
  intro env st hB
  have hBt : ∀ task : ScanTask, env.hasBackend = true → (proposedReplyFor env task).isSome := by
    intro task hb
    simpa [proposedReplyFor, hb] using hB task.comment.id hb
  have hrun : ∀ st' : EngineState,
      handleYoutubeScan env .dryRun st' =
        (saveStateTo st',
         (applyLimit env.limit (scanAllVideos env st'.replied)).map
           fun t => mkScanItem t (proposedReplyFor env t) .pending) := by
    intro st'
    simp only [handleYoutubeScan, runScanLoop_no_mutation .dryRun env (by decide) hBt]
    simp [saveStateTo]
  rw [hrun st, hrun (saveStateTo st)]
  exact ⟨rfl, rfl, rfl⟩

/-- C4 witness for the amended claim: with no backend configured, two dry-run
scans over the SKIP fixture environment coincide and leave membership
unchanged. -/
theorem c4_witness :
    (handleYoutubeScan noBackendEnv .dryRun { replied := [], stateFile := .missing }).1.replied =
      ({ replied := [], stateFile := .missing } : EngineState).replied ∧
    (handleYoutubeScan noBackendEnv .dryRun
       (handleYoutubeScan noBackendEnv .dryRun { replied := [], stateFile := .missing }).1).2 =
      (handleYoutubeScan noBackendEnv .dryRun { replied := [], stateFile := .missing }).2 ∧
    (handleYoutubeScan noBackendEnv .dryRun
       (handleYoutubeScan noBackendEnv .dryRun { replied := [], stateFile := .missing }).1).1 =
      (handleYoutubeScan noBackendEnv .dryRun { replied := [], stateFile := .missing }).1 :=
  c4_dry_run_idempotent_unless_skip noBackendEnv _ (fun _ h => absurd h (by decide))
